import Mathlib

/-!
Verification of the SyncFlow authentication/authorization subsystem.

Shallow embedding of:
- `src/backend/bun/src/constants/permissions.constants.ts` (role/permission catalog)
- `src/unnamed/part_007` (token utilities: JWT issue/verify, token blacklist)
- `src/backend/bun/src/controllers/auth.controller.ts` (login, refresh, sessions, email OTP)
- `src/backend/bun/src/middlewares/rbac.middleware.ts` (`authorize`)
- `src/unnamed/part_000` (`authenticate` middleware)

Machine integers do not occur; counters are `Nat`. JWTs are modelled
symbolically: a signed token is a record of its claims, signing key,
algorithm and absolute expiry, plus a `malformed` constructor for arbitrary
strings that do not parse as JWTs. `jsonwebtoken`'s `verify` is modelled as
an `Except` (an `.error` is a thrown `JsonWebTokenError`/`TokenExpiredError`).
-/

namespace SyncFlow

/-! ## Role / permission catalog (permissions.constants.ts) -/

def ROLES : List String := ["Admin", "Manager", "Developer", "Viewer", "Guest"]

def ALL_PERMISSIONS : List String :=
  ["create_project", "edit_project", "delete_project", "view_project",
   "create_task", "edit_task", "delete_task", "assign_task", "view_task",
   "create_user", "edit_user", "delete_user", "assign_roles", "view_users",
   "manage_permissions", "invite_users", "remove_users", "view_roles"]

/-- `ROLE_PERMISSIONS[role]`; an unknown role maps to `[]`
(the middleware's `ROLE_PERMISSIONS[role] || []`). -/
def ROLE_PERMISSIONS : String → List String
  | "Admin" => ALL_PERMISSIONS
  | "Manager" =>
      ["create_project", "edit_project", "view_project",
       "create_task", "edit_task", "delete_task", "assign_task", "view_task",
       "view_users", "invite_users", "view_roles"]
  | "Developer" =>
      ["view_project", "create_task", "edit_task", "view_task", "view_users"]
  | "Viewer" => ["view_project", "view_task", "view_users", "view_roles"]
  | "Guest" => ["view_project", "view_task"]
  | _ => []

/-! ## Token service (src/unnamed/part_007, token.utils) -/

/-- The JWT signing secrets are opaque environment values; all that matters
is their identity, so they are modelled as distinct atoms. -/
def ACCESS_TOKEN_SECRET : String := "env:ACCESS_TOKEN_SECRET"

def REFRESH_TOKEN_SECRET : String := "env:REFRESH_TOKEN_SECRET"

def RANDOM_TOKEN_SECRET : String := "env:RANDOM_TOKEN_SECRET"

/-- Default access-token lifetime: `'15m'` (seconds). -/
def ACCESS_TOKEN_EXPIRY : Nat := 900

/-- Default refresh-token lifetime: `'7d'` (seconds). -/
def REFRESH_TOKEN_EXPIRY : Nat := 604800

/-- Claim set of an access token (`TokenPayload`): payload fields plus the
`iss`/`aud` registered claims the source writes into the payload. -/
structure AccessClaims where
  userId : String
  email : String
  roles : List String
  permissions : List String
  iss : Option String
  aud : Option String
  deriving DecidableEq, Repr

/-- Claim set of a refresh token: `{ userId, jti }`. -/
structure RefreshClaims where
  userId : String
  jti : String
  deriving DecidableEq, Repr

/-- Claim set of an action token (`generatetoken`): `{ email, data }` signed
with issuer/audience options, so `iss`/`aud` land in the claims. -/
structure ActionClaims where
  email : String
  data : String
  iss : Option String
  aud : Option String
  deriving DecidableEq, Repr

/-- A symbolic signed JWT over a claim type: claims, signing key, algorithm,
absolute expiry (`iat + expiresIn`). -/
structure Jwt (α : Type) where
  claims : α
  key : String
  alg : String
  exp : Nat
  deriving DecidableEq, Repr

/-- Input to a verify function: either a well-formed signed token or an
arbitrary string that does not parse as a JWT. -/
inductive TokenInput (α : Type) where
  | malformed (raw : String)
  | signed (t : Jwt α)
  deriving DecidableEq, Repr

/-- `jwt.verify(token, key, { algorithms: [alg], issuer?, audience? })`
modelled symbolically. `.error` is a thrown verification error. -/
def jwtVerify {α : Type} (getIss getAud : α → Option String)
    (t : TokenInput α) (key alg : String)
    (issuer audience : Option String) (now : Nat) : Except String α :=
  match t with
  | .malformed _ => .error "jwt malformed"
  | .signed j =>
      if j.key ≠ key then .error "invalid signature"
      else if j.alg ≠ alg then .error "invalid algorithm"
      else if j.exp ≤ now then .error "jwt expired"
      else if issuer.isSome ∧ getIss j.claims ≠ issuer then
        .error "jwt issuer invalid"
      else if audience.isSome ∧ getAud j.claims ≠ audience then
        .error "jwt audience invalid"
      else .ok j.claims

/-- Input of `generateAccessToken`:
`Pick<TokenPayload, 'userId' | 'email' | 'roles' | 'permissions'>`. -/
structure TokenUser where
  userId : String
  email : String
  roles : List String
  permissions : List String
  deriving DecidableEq, Repr

/-- `generateAccessToken`: signs `{userId, email, roles, permissions,
iss: 'SyncFlow', aud: 'SyncFlow-Aud', sub: userId}` with
`ACCESS_TOKEN_SECRET`, HS512, expiry `now + ACCESS_TOKEN_EXPIRY`. -/
def generateAccessToken (user : TokenUser) (now : Nat) : TokenInput AccessClaims :=
  .signed
    { claims :=
        { userId := user.userId
          email := user.email
          roles := user.roles
          permissions := user.permissions
          iss := some "SyncFlow"
          aud := some "SyncFlow-Aud" }
      key := ACCESS_TOKEN_SECRET
      alg := "HS512"
      exp := now + ACCESS_TOKEN_EXPIRY }

/-- The `User` value returned by `verifyAccessToken`. -/
structure VerifiedUser where
  userId : String
  email : String
  roles : List String
  permissions : List String
  deriving DecidableEq, Repr

/-- Underlying `jwt.verify` call of `verifyAccessToken` (enforces key,
HS512, issuer `'SyncFlow'`, audience `'SyncFlow-Aud'`, expiry). -/
def jwtVerifyAccess (t : TokenInput AccessClaims) (now : Nat) : Except String AccessClaims :=
  jwtVerify (·.iss) (·.aud) t ACCESS_TOKEN_SECRET "HS512"
    (some "SyncFlow") (some "SyncFlow-Aud") now

/-- `verifyAccessToken`: on success filters roles against `ROLES` and
permissions against `ALL_PERMISSIONS` (unknown entries dropped); any
verification error is caught and turned into `null` (`none`).
(The source's `Array.isArray(payload.roles)` normalisation is the identity
here because `roles` is typed as a list.) -/
def verifyAccessToken (t : TokenInput AccessClaims) (now : Nat) : Option VerifiedUser :=
  match jwtVerifyAccess t now with
  | .error _ => none
  | .ok p =>
      some
        { userId := p.userId
          email := p.email
          roles := p.roles.filter (ROLES.contains ·)
          permissions := p.permissions.filter (ALL_PERMISSIONS.contains ·) }

/-- `generateRefreshToken`: signs `{userId, jti}` with
`REFRESH_TOKEN_SECRET`, HS512; `jti` is a fresh uuid, passed explicitly. -/
def generateRefreshToken (userId jti : String) (now : Nat) : TokenInput RefreshClaims :=
  .signed
    { claims := { userId := userId, jti := jti }
      key := REFRESH_TOKEN_SECRET
      alg := "HS512"
      exp := now + REFRESH_TOKEN_EXPIRY }

/-- Underlying `jwt.verify` call of `verifyRefreshToken` (key + HS512 only;
no issuer/audience options are passed). -/
def jwtVerifyRefresh (t : TokenInput RefreshClaims) (now : Nat) : Except String RefreshClaims :=
  jwtVerify (fun _ => none) (fun _ => none) t REFRESH_TOKEN_SECRET "HS512" none none now

/-- `verifyRefreshToken`: returns `{userId, jti}` or `null`; a falsy
(`""`) `userId` or `jti` throws inside the `try` and is caught to `null`. -/
def verifyRefreshToken (t : TokenInput RefreshClaims) (now : Nat) :
    Option RefreshClaims :=
  match jwtVerifyRefresh t now with
  | .error _ => none
  | .ok p => if p.userId = "" ∨ p.jti = "" then none else some p

/-- `generatetoken(email)`: action token `{email, data: RANDOM_TOKEN_SECRET}`
signed with `RANDOM_TOKEN_SECRET`, HS512, 1h expiry, issuer `'SyncFlow'`,
audience `'SyncFlow-Aud'` (sign options, hence present in the claims). -/
def generatetoken (email : String) (now : Nat) : TokenInput ActionClaims :=
  .signed
    { claims :=
        { email := email
          data := RANDOM_TOKEN_SECRET
          iss := some "SyncFlow"
          aud := some "SyncFlow-Aud" }
      key := RANDOM_TOKEN_SECRET
      alg := "HS512"
      exp := now + 3600 }

/-- Underlying `jwt.verify` call of `verifyToken`. -/
def jwtVerifyAction (t : TokenInput ActionClaims) (now : Nat) : Except String ActionClaims :=
  jwtVerify (·.iss) (·.aud) t RANDOM_TOKEN_SECRET "HS512"
    (some "SyncFlow") (some "SyncFlow-Aud") now

/-- `verifyToken(token)`: returns `decoded.email`. There is NO try/catch in
the source, so a verification error propagates to the caller — hence the
`Except` result, in contrast to the `Option` results above. -/
def verifyToken (t : TokenInput ActionClaims) (now : Nat) : Except String String :=
  (jwtVerifyAction t now).map (·.email)

/-! ## Password hasher and login (auth.controller.ts) -/

/-- Modelled from the spec: `src` does not contain
`utils/hashPassword.utils.ts` (only its importers), so the Password Hasher
of spec §4.1 is modelled abstractly: `hash` is one-way and deterministic
here (salting is irrelevant to the login logic, which only consumes the
boolean outcome of `verify`). -/
def hashPassword (plaintext : String) : String := "bcrypt$" ++ plaintext

/-- Modelled from the spec: `verify(plaintext, hash) -> bool` — returns
`false` for a merely-wrong password, never throws (spec §4.1). -/
def comparePassword (plaintext stored : String) : Bool :=
  stored == hashPassword plaintext

/-- The fields of a `User` row that `AuthController.login` selects and
updates. `lastLoginAt` is `none` until the first successful login. -/
structure DbUser where
  id : String
  email : String
  password : String
  isEmailVerified : Bool
  isLocked : Bool
  failedAttempts : Nat
  lastLoginAt : Option Nat
  deriving DecidableEq, Repr

/-- `prisma.user.findUnique({ where: { email } })`; emails are unique, so
first match. -/
def findUser (users : List DbUser) (email : String) : Option DbUser :=
  users.find? (·.email == email)

/-- `prisma.user.update({ where: { email } })`: updates the (unique) row
with that email — the first match, mirroring `findUser`. -/
def updateUser (users : List DbUser) (email : String) (f : DbUser → DbUser) :
    List DbUser :=
  match users with
  | [] => []
  | u :: us =>
      if u.email == email then f u :: us else u :: updateUser us email f

/-- Outcome of one `login` call: HTTP status & message, the credential
store afterwards, whether `comparePassword` was invoked on this attempt
(ghost flag recording that the call site at line 254 executed), and
whether a session row was created. -/
structure LoginResult where
  status : Nat
  message : String
  users : List DbUser
  comparedPassword : Bool
  sessionCreated : Bool
  deriving DecidableEq, Repr

/-- `AuthController.login` (lines 203–352): validation → user lookup →
lock check → password comparison → counter update / reset + session.
JS falsiness of the inputs is emptiness of the strings. -/
def login (users : List DbUser) (email password : String) (now : Nat) :
    LoginResult :=
  if email = "" ∨ password = "" then
    { status := 400, message := "Email and password are required."
      users := users, comparedPassword := false, sessionCreated := false }
  else
    match findUser users email with
    | none =>
        { status := 404, message := "User not found."
          users := users, comparedPassword := false, sessionCreated := false }
    | some u =>
        if u.isLocked then
          { status := 403
            message := "Account is locked due to multiple failed login attempts."
            users := users, comparedPassword := false, sessionCreated := false }
        else if ¬ comparePassword password u.password then
          { status := 401, message := "Invalid credentials."
            users := updateUser users email (fun v =>
              { v with failedAttempts := u.failedAttempts + 1
                       isLocked := decide (u.failedAttempts + 1 ≥ 5) })
            comparedPassword := true, sessionCreated := false }
        else
          { status := 200, message := "Login successful."
            users := updateUser users email (fun v =>
              { v with failedAttempts := 0, lastLoginAt := some now })
            comparedPassword := true, sessionCreated := true }

/-! ## Session manager (auth.controller.ts lines 701–797) -/

structure Session where
  id : String
  userId : String
  ipAddress : String
  userAgent : String
  createdAt : Nat
  expiresAt : Nat
  deriving DecidableEq, Repr

/-- Insert into a list already sorted by `createdAt` descending. -/
def insertDesc (s : Session) : List Session → List Session
  | [] => [s]
  | t :: ts => if t.createdAt ≤ s.createdAt then s :: t :: ts else t :: insertDesc s ts

/-- `orderBy: { createdAt: 'desc' }`. -/
def sortByCreatedDesc : List Session → List Session
  | [] => []
  | s :: ss => insertDesc s (sortByCreatedDesc ss)

/-- `AuthController.getAllSessions` data path:
`prisma.session.findMany({ where: { userId }, orderBy: { createdAt: 'desc' } })`. -/
def listSessions (sessions : List Session) (userId : String) : List Session :=
  sortByCreatedDesc (sessions.filter (·.userId == userId))

/-- Store effect of `AuthController.revokeSession`:
`prisma.session.delete({ where: { id: sessionId } })`. -/
def revokeSessionStore (sessions : List Session) (sessionId : String) :
    List Session :=
  sessions.filter (fun s => !(s.id == sessionId))

/-- Store effect of `AuthController.revokeAllSessions`:
`prisma.session.deleteMany({ where: { userId } })`. -/
def revokeAllSessionsStore (sessions : List Session) (userId : String) :
    List Session :=
  sessions.filter (fun s => !(s.userId == userId))

/-! ## Access control guard (rbac.middleware.ts `authorize`) -/

structure AuthzUser where
  userId : String
  email : String
  roles : List String
  permissions : List String
  deriving DecidableEq, Repr

inductive AuthzResult where
  | unauthenticated
  | forbidden (missing : List String)
  | allowed
  deriving DecidableEq, Repr

/-- HTTP status of each `authorize` outcome (401 / 403 / pass-through). -/
def statusOf : AuthzResult → Nat
  | .unauthenticated => 401
  | .forbidden _ => 403
  | .allowed => 200

/-- `new Set([...user.roles.flatMap(role => ROLE_PERMISSIONS[role] || []),
...(user.permissions || [])])` — set membership is list membership. -/
def userPermissionsOf (u : AuthzUser) : List String :=
  (u.roles.map ROLE_PERMISSIONS).flatten ++ u.permissions

/-- `required.every(item => { const allowed = p item; if (!allowed)
missing.push(item); return allowed; })` — `every` stops at the first
`false`, so `missing` receives at most that one item. Returns
`(hasAccess, missing)`. -/
def everyCollect (p : String → Bool) : List String → Bool × List String
  | [] => (true, [])
  | x :: xs => if p x then everyCollect p xs else (false, [x])

/-- `authorize(required, { requireAll, checkPermissions })` applied to a
request whose `req.user` is `user`. The source's `Array.isArray` guard
cannot fail on typed input and the surrounding try/catch is unreachable,
so both are omitted. -/
def authorize (required : List String) (requireAll checkPermissions : Bool)
    (user : Option AuthzUser) : AuthzResult :=
  match user with
  | none => .unauthenticated
  | some u =>
      let ups := userPermissionsOf u
      let res :=
        if checkPermissions then
          if requireAll then everyCollect (ups.contains ·) required
          else (required.any (ups.contains ·), [])
        else
          if requireAll then everyCollect (u.roles.contains ·) required
          else (u.roles.any (required.contains ·), [])
      if res.1 then .allowed else .forbidden res.2

/-- `required.filter(item => !held.includes(item))` — the set difference
the spec says the deny path reports. -/
def setDiff (required held : List String) : List String :=
  required.filter (fun x => !(held.contains x))

/-! ## Token blacklist (src/unnamed/part_007, tokenBlackList.utils) and
authenticate middleware (src/unnamed/part_000) -/

/-- The Redis client: either reachable with its key→value entries, or
unreachable (every command throws) while still holding `entries` that were
written before the outage. -/
inductive CacheState where
  | up (entries : List (String × String))
  | down (entries : List (String × String))
  deriving DecidableEq, Repr

/-- `redisClient.get(key)`: value or `null` when up, throws when down. -/
def cacheGet : CacheState → String → Except String (Option String)
  | .up es, k => .ok (((es.find? (·.1 == k))).map (·.2))
  | .down _, _ => .error "redis unreachable"

/-- SHA-256 hex digest, modelled as an injective tagging. -/
def hashToken (token : String) : String := "sha256$" ++ token

/-- `isTokenBlacklisted`: `get` of `blacklist:<sha256(token)>` compared to
`"true"`; ANY cache error is caught and mapped to `false`. -/
def isTokenBlacklisted (cache : CacheState) (token : String) : Bool :=
  match cacheGet cache ("blacklist:" ++ hashToken token) with
  | .ok r => r == some "true"
  | .error _ => false

inductive AuthOutcome where
  | noToken
  | emptyToken
  | revoked
  | invalid
  | ok (u : VerifiedUser)
  deriving DecidableEq, Repr

/-- `authenticate` middleware: header check → blacklist check → signature
verification → attach user. `decode` is the ambient parse of the raw token
string into the symbolic JWT (the JWT wire format is not modelled).
Under the `startsWith "Bearer "` guard,
`header.replace("Bearer ", "").trim()` equals `(header.drop 7).trim`. -/
def authenticate (cache : CacheState) (header : Option String)
    (decode : String → TokenInput AccessClaims) (now : Nat) : AuthOutcome :=
  match header with
  | none => .noToken
  | some h =>
      if ¬ h.startsWith "Bearer " then .noToken
      else
        let token := (h.drop 7).trim
        if token = "" then .emptyToken
        else if isTokenBlacklisted cache token then .revoked
        else
          match verifyAccessToken (decode token) now with
          | none => .invalid
          | some u => .ok u

/-! ## Refresh flow (auth.controller.ts `refreshToken`, lines 379–457) -/

/-- The `User` row fields the refresh handler selects: id, email, and the
user's assigned role names (the `roles: true` relation,
`UserRole → Role.name`). -/
structure RUser where
  id : String
  email : String
  assignedRoles : List String
  deriving DecidableEq, Repr

/-- A `Role` table row (id is a uuid primary key, unrelated to user ids). -/
structure RoleRec where
  id : String
  name : String
  deriving DecidableEq, Repr

structure RefreshResult where
  status : Nat
  newAccessToken : Option (TokenInput AccessClaims)
  deriving DecidableEq, Repr

/-- `AuthController.refreshToken`: verify refresh token → fetch user →
`prisma.role.findMany({ where: { id: user.id } })` (note: filters the Role
table's OWN id by the USER's id) → map to names (a TypeScript cast, no
filtering) → `generateAccessToken({userId, email, roles})` (permissions
omitted, hence `[]`). -/
def refreshTokenHandler (users : List RUser) (roleTable : List RoleRec)
    (tok : TokenInput RefreshClaims) (now : Nat) : RefreshResult :=
  match verifyRefreshToken tok now with
  | none => { status := 401, newAccessToken := none }
  | some d =>
      match users.find? (·.id == d.userId) with
      | none => { status := 404, newAccessToken := none }
      | some u =>
          let validRoles := (roleTable.filter (·.id == u.id)).map (·.name)
          { status := 200
            newAccessToken := some (generateAccessToken
              { userId := u.id, email := u.email
                roles := validRoles, permissions := [] } now) }

/-- Roles embedded in the access token a refresh response carries
(`[]` when no token was issued). -/
def embeddedRoles (r : RefreshResult) : List String :=
  match r.newAccessToken with
  | some (.signed j) => j.claims.roles
  | _ => []

/-! ## Email OTP (auth.controller.ts `sendEmailOtp`, lines 1089–1146) -/

/-- Observable effects and response of one `sendEmailOtp` call. -/
structure SendEmailOtpResult where
  status : Nat
  bodyOtp : Option String
  emailedTo : Option (String × String)
  cacheWrite : Option (String × String × Nat)
  dbEmailCode : Option (String × String)
  deriving DecidableEq, Repr

/-- JS truthiness of an optional string field (`req.user?.userId`). -/
def strTruthy : Option String → Bool
  | none => false
  | some s => !(s == "")

/-- `AuthController.sendEmailOtp`. `twoFactorUserIds` is the set of user
ids having a `TwoFactorSettings` row (`prisma.twoFactorSettings.update`
throws — caught to a 500 — when the row is missing). `rand` stands for the
`Math.random()` draw: `otp = floor(100000 + rand * 900000).toString()`,
modelled as `100000 + rand % 900000`. -/
def sendEmailOtp (twoFactorUserIds : List String)
    (userId email : Option String) (rand : Nat) : SendEmailOtpResult :=
  if ¬ strTruthy email then
    { status := 400, bodyOtp := none, emailedTo := none
      cacheWrite := none, dbEmailCode := none }
  else if ¬ strTruthy userId then
    { status := 400, bodyOtp := none, emailedTo := none
      cacheWrite := none, dbEmailCode := none }
  else
    let uid := userId.getD ""
    let em := email.getD ""
    let otp := toString (100000 + rand % 900000)
    if twoFactorUserIds.contains uid then
      { status := 200
        bodyOtp := some otp
        emailedTo := some (em, otp)
        cacheWrite := some ("emailOtp:" ++ uid, otp, 300)
        dbEmailCode := some (uid, otp) }
    else
      -- the update throws after the email and cache writes already happened
      { status := 500, bodyOtp := none, emailedTo := some (em, otp)
        cacheWrite := some ("emailOtp:" ++ uid, otp, 300)
        dbEmailCode := none }

/-! ## Concrete instances used by witnesses and counterexamples -/

/-- A credential store holding exactly one registered identity. -/
def users0 : List DbUser :=
  [{ id := "u1", email := "alice@example.com", password := hashPassword "secret"
     isEmailVerified := true, isLocked := false, failedAttempts := 0
     lastLoginAt := none }]

/-- An action token issued at time 0 (expires at 3600). -/
def actionTok0 : TokenInput ActionClaims := generatetoken "a@example.com" 0

/-- A user whose id is `u2` and whose assigned role is `Manager`. -/
def rUsers0 : List RUser := [{ id := "u2", email := "u2@example.com", assignedRoles := ["Manager"] }]

/-- A role table with uuid primary keys (no row's id equals a user id). -/
def roleTable0 : List RoleRec :=
  [{ id := "role-uuid-1", name := "Viewer" }, { id := "role-uuid-2", name := "Manager" }]

/-- A valid refresh token for `u2`, issued at time 0. -/
def refreshTok0 : TokenInput RefreshClaims := generateRefreshToken "u2" "jti-1" 0

/-- An authenticated identity holding no roles and no explicit permissions. -/
def authzU0 : AuthzUser := { userId := "u0", email := "u0@example.com", roles := [], permissions := [] }

/-- Cache contents in which the token string `tok` has been blacklisted. -/
def blkEntries0 : List (String × String) := [("blacklist:" ++ hashToken "tok", "true")]

/-- A fixed decode for witness instantiation. -/
def decode0 : String → TokenInput AccessClaims := fun raw => .malformed raw

/-- Three sessions of two identities, pairwise-distinct ids. -/
def sessions0 : List Session :=
  [{ id := "s1", userId := "u1", ipAddress := "ip1", userAgent := "ua1", createdAt := 5, expiresAt := 100 },
   { id := "s2", userId := "u1", ipAddress := "ip2", userAgent := "ua2", createdAt := 9, expiresAt := 100 },
   { id := "s3", userId := "u2", ipAddress := "ip3", userAgent := "ua3", createdAt := 7, expiresAt := 100 }]

/-- The session `s1` of `sessions0`. -/
def sess0 : Session :=
  { id := "s1", userId := "u1", ipAddress := "ip1", userAgent := "ua1", createdAt := 5, expiresAt := 100 }

/-- A credential store holding one locked identity (failedAttempts at the
threshold). -/
def usersLocked0 : List DbUser :=
  [{ id := "u9", email := "carol@example.com", password := hashPassword "pw"
     isEmailVerified := true, isLocked := true, failedAttempts := 5
     lastLoginAt := none }]

/-! ## Helper lemmas -/

/-- `findUser` after `updateUser` on the same email applies the update to
the found row, provided the update preserves the email. -/
theorem findUser_updateUser (users : List DbUser) (email : String)
    (f : DbUser → DbUser) (hf : ∀ v, (f v).email = v.email) :
    findUser (updateUser users email f) email = (findUser users email).map f := by
  induction users with
  | nil => rfl
  | cons u us ih =>
      by_cases h : u.email = email
      · simp [findUser, updateUser, List.find?_cons, h, hf]
      · simp only [updateUser, findUser] at *
        simp [List.find?_cons, h, ih]

/-- `everyCollect` on a list whose first failing element is `x` reports
`(false, [x])`: the push-inside-every idiom collects only the first
missing item. -/
theorem everyCollect_first_fail (p : String → Bool) (pre : List String)
    (x : String) (suf : List String)
    (hpre : ∀ a ∈ pre, p a = true) (hx : p x = false) :
    everyCollect p (pre ++ x :: suf) = (false, [x]) := by
  induction pre with
  | nil => simp [everyCollect, hx]
  | cons a l ih =>
      have ha : p a = true := hpre a (by simp)
      simp only [List.cons_append, everyCollect, ha, if_true]
      exact ih (fun b hb => hpre b (by simp [hb]))

theorem mem_insertDesc (s t : Session) (l : List Session) :
    t ∈ insertDesc s l ↔ t = s ∨ t ∈ l := by
  induction l with
  | nil => simp [insertDesc]
  | cons a l ih =>
      by_cases h : a.createdAt ≤ s.createdAt
      · simp [insertDesc, h]
      · simp [insertDesc, h, ih]
        tauto

theorem mem_sortByCreatedDesc (t : Session) (l : List Session) :
    t ∈ sortByCreatedDesc l ↔ t ∈ l := by
  induction l with
  | nil => simp [sortByCreatedDesc]
  | cons a l ih => simp [sortByCreatedDesc, mem_insertDesc, ih]

/-- In a store with pairwise-distinct session ids, a member sharing an id
with a member is that member. -/
theorem eq_of_mem_id (ss : List Session)
    (hu : ss.Pairwise (fun a b => a.id ≠ b.id)) (t s : Session)
    (ht : t ∈ ss) (hs : s ∈ ss) (hid : s.id = t.id) : s = t := by
  induction ss with
  | nil => cases ht
  | cons a l ih =>
      rcases List.pairwise_cons.mp hu with ⟨ha, hl⟩
      rcases List.mem_cons.mp ht with rfl | ht' <;>
        rcases List.mem_cons.mp hs with rfl | hs'
      · rfl
      · exact absurd hid.symm (ha s hs')
      · exact absurd hid (ha t ht')
      · exact ih hl ht' hs'

/-- Deleting an existing session id removes exactly one record. -/
theorem length_revokeSessionStore (ss : List Session) (t : Session)
    (hu : ss.Pairwise (fun a b => a.id ≠ b.id)) (ht : t ∈ ss) :
    (revokeSessionStore ss t.id).length + 1 = ss.length := by
  induction ss with
  | nil => cases ht
  | cons a l ih =>
      rcases List.pairwise_cons.mp hu with ⟨ha, hl⟩
      rcases List.mem_cons.mp ht with rfl | ht'
      · simp only [revokeSessionStore, List.filter_cons, beq_self_eq_true,
          Bool.not_true, List.length_cons]
        have : l.filter (fun s => !(s.id == t.id)) = l :=
          List.filter_eq_self.mpr (fun b hb => by
            simpa using (ha b hb).symm)
        simp [this]
      · have hne : a.id ≠ t.id := ha t ht'
        simp only [revokeSessionStore, List.filter_cons]
        rw [if_pos (by simpa using hne)]
        simpa [revokeSessionStore] using ih hl ht'

/-! ## Claim theorems -/

/-- Claim C1: lockout state machine over login. For an unlocked identity at
`failedAttempts = k` (k ≤ 4), one wrong-password login ends with
`failedAttempts = k + 1`, `locked = (k + 1 == 5)` and the InvalidCredentials
response (401); the correct password ends with `failedAttempts = 0` and
`lastLoginAt` set to the current time. -/
theorem lockout_state_machine (users : List DbUser) (email password : String)
    (now k : Nat) (u : DbUser) (he : email ≠ "") (hp : password ≠ "")
    (hu : findUser users email = some u) (hlock : u.isLocked = false)
    (hk : u.failedAttempts = k) (hk4 : k ≤ 4) :
    (comparePassword password u.password = false →
      (login users email password now).status = 401 ∧
      (login users email password now).message = "Invalid credentials." ∧
      ∃ u', findUser (login users email password now).users email = some u' ∧
        u'.failedAttempts = k + 1 ∧ u'.isLocked = decide (k + 1 = 5)) ∧
    (comparePassword password u.password = true →
      (login users email password now).status = 200 ∧
      ∃ u', findUser (login users email password now).users email = some u' ∧
        u'.failedAttempts = 0 ∧ u'.lastLoginAt = some now) := by
  constructor
  · intro hcmp
    refine ⟨by simp [login, he, hp, hu, hlock, hcmp],
            by simp [login, he, hp, hu, hlock, hcmp], ?_⟩
    have husers : (login users email password now).users =
        updateUser users email (fun v =>
          { v with failedAttempts := u.failedAttempts + 1,
                   isLocked := decide (u.failedAttempts + 1 ≥ 5) }) := by
      simp [login, he, hp, hu, hlock, hcmp]
    rw [husers, findUser_updateUser users email (fun v =>
          { v with failedAttempts := u.failedAttempts + 1,
                   isLocked := decide (u.failedAttempts + 1 ≥ 5) }) (fun v => rfl), hu]
    refine ⟨_, rfl, by simp [hk], ?_⟩
    simp only [hk]
    exact decide_eq_decide.mpr (by omega)
  · intro hcmp
    refine ⟨by simp [login, he, hp, hu, hlock, hcmp], ?_⟩
    have husers : (login users email password now).users =
        updateUser users email (fun v =>
          { v with failedAttempts := 0, lastLoginAt := some now }) := by
      simp [login, he, hp, hu, hlock, hcmp]
    rw [husers, findUser_updateUser users email (fun v =>
          { v with failedAttempts := 0, lastLoginAt := some now }) (fun v => rfl), hu]
    exact ⟨_, rfl, rfl, rfl⟩

/-- Witness for C1 at a concrete store: one identity at `failedAttempts = 0`
receiving a wrong password. -/
theorem lockout_state_machine_witness :
    (comparePassword "wrong" ((users0.get ⟨0, by decide⟩).password) = false →
      (login users0 "alice@example.com" "wrong" 7).status = 401 ∧
      (login users0 "alice@example.com" "wrong" 7).message = "Invalid credentials." ∧
      ∃ u', findUser (login users0 "alice@example.com" "wrong" 7).users "alice@example.com" = some u' ∧
        u'.failedAttempts = 0 + 1 ∧ u'.isLocked = decide (0 + 1 = 5)) ∧
    (comparePassword "wrong" ((users0.get ⟨0, by decide⟩).password) = true →
      (login users0 "alice@example.com" "wrong" 7).status = 200 ∧
      ∃ u', findUser (login users0 "alice@example.com" "wrong" 7).users "alice@example.com" = some u' ∧
        u'.failedAttempts = 0 ∧ u'.lastLoginAt = some 7) :=
  lockout_state_machine users0 "alice@example.com" "wrong" 7 0 _
    (by decide) (by decide) (by decide) (by decide) (by decide) (by decide)

/-- Claim C2 (code bug evaluation): the refresh handler queries the Role
table by `id = user.id`, so for the user `u2` whose assigned role is
`Manager` it issues a fresh access token embedding `[]`, not the currently
assigned roles. -/
theorem refresh_roles_code_eval :
    (refreshTokenHandler rUsers0 roleTable0 refreshTok0 100).status = 200 ∧
    embeddedRoles (refreshTokenHandler rUsers0 roleTable0 refreshTok0 100) = [] ∧
    (rUsers0.find? (·.id == "u2")).map (·.assignedRoles) = some ["Manager"] ∧
    embeddedRoles (refreshTokenHandler rUsers0 roleTable0 refreshTok0 100) ≠ ["Manager"] := by
  refine ⟨rfl, rfl, rfl, by decide⟩

/-- Claim C3: access-token round trip. Verifying before expiry returns the
same `userId` and `email`, with roles/permissions filtered to the known
catalogs; a token signed with a different key, or carrying a different
issuer or audience string, verifies as invalid (`none`). -/
theorem access_token_round_trip :
    (∀ (u : TokenUser) (tIssue tVerify : Nat),
      tVerify < tIssue + ACCESS_TOKEN_EXPIRY →
      verifyAccessToken (generateAccessToken u tIssue) tVerify =
        some { userId := u.userId, email := u.email
               roles := u.roles.filter (ROLES.contains ·)
               permissions := u.permissions.filter (ALL_PERMISSIONS.contains ·) }) ∧
    (∀ (j : Jwt AccessClaims) (now : Nat),
      j.key ≠ ACCESS_TOKEN_SECRET ∨ j.claims.iss ≠ some "SyncFlow" ∨
        j.claims.aud ≠ some "SyncFlow-Aud" →
      verifyAccessToken (.signed j) now = none) := by
  constructor
  · intro u tIssue tVerify hlt
    simp [verifyAccessToken, jwtVerifyAccess, jwtVerify, generateAccessToken,
      Nat.not_le.mpr hlt, hlt, Nat.not_lt]
  · intro j now h
    have hok : ∀ c, jwtVerifyAccess (.signed j) now ≠ .ok c := by
      intro c hc
      simp only [jwtVerifyAccess, jwtVerify] at hc
      rcases h with h | h | h <;>
        (repeat' split at hc) <;> simp_all
    cases he : jwtVerifyAccess (.signed j) now with
    | error e => simp [verifyAccessToken, he]
    | ok c => exact absurd he (hok c)

/-- Witness for C3: a concrete claim set with one unknown role and one
unknown permission round-trips with those entries dropped; a token with a
wrong issuer is rejected. -/
theorem access_token_round_trip_witness :
    verifyAccessToken
        (generateAccessToken
          { userId := "u1", email := "a@example.com"
            roles := ["Manager", "NotARole"]
            permissions := ["view_task", "launch_missiles"] } 0) 100 =
      some { userId := "u1", email := "a@example.com"
             roles := ["Manager"], permissions := ["view_task"] } ∧
    verifyAccessToken
        (.signed
          { claims :=
              { userId := "u1", email := "a@example.com", roles := []
                permissions := [], iss := some "Evil", aud := some "SyncFlow-Aud" }
            key := ACCESS_TOKEN_SECRET, alg := "HS512", exp := 900 }) 0 = none :=
  ⟨access_token_round_trip.1
      { userId := "u1", email := "a@example.com"
        roles := ["Manager", "NotARole"]
        permissions := ["view_task", "launch_missiles"] } 0 100 (by decide),
   access_token_round_trip.2
      { claims :=
          { userId := "u1", email := "a@example.com", roles := []
            permissions := [], iss := some "Evil", aud := some "SyncFlow-Aud" }
        key := ACCESS_TOKEN_SECRET, alg := "HS512", exp := 900 } 0
      (Or.inr (Or.inl (by decide)))⟩

/-- Claim C4: a locked identity is rejected with the AccountLocked response
(403) on every login attempt, whatever password is presented; the password
hash comparison is never invoked and the store is unchanged. -/
theorem locked_login_rejected (users : List DbUser) (email password : String)
    (now : Nat) (u : DbUser) (he : email ≠ "") (hp : password ≠ "")
    (hu : findUser users email = some u) (hl : u.isLocked = true) :
    (login users email password now).status = 403 ∧
    (login users email password now).message =
      "Account is locked due to multiple failed login attempts." ∧
    (login users email password now).comparedPassword = false ∧
    (login users email password now).users = users := by
  simp [login, he, hp, hu, hl]

/-- Witness for C4: the locked identity `carol@example.com` presenting its
CORRECT password is still rejected 403 without a hash comparison. -/
theorem locked_login_rejected_witness :
    (login usersLocked0 "carol@example.com" "pw" 3).status = 403 ∧
    (login usersLocked0 "carol@example.com" "pw" 3).message =
      "Account is locked due to multiple failed login attempts." ∧
    (login usersLocked0 "carol@example.com" "pw" 3).comparedPassword = false ∧
    (login usersLocked0 "carol@example.com" "pw" 3).users = usersLocked0 :=
  locked_login_rejected usersLocked0 "carol@example.com" "pw" 3
    (usersLocked0.get ⟨0, by decide⟩)
    (by decide) (by decide) (by decide) (by decide)

/-- Claim C5 counterexample: at a concrete store, an unknown-email login
answers 404 "User not found." while a known-email wrong-password login
answers 401 "Invalid credentials." — the responses differ, so they reveal
whether the email is registered, refuting the claimed indistinguishability. -/
theorem login_enumeration_counterexample :
    ((login users0 "bob@example.com" "hunter2" 0).status,
     (login users0 "bob@example.com" "hunter2" 0).message) ≠
      ((login users0 "alice@example.com" "hunter2" 0).status,
       (login users0 "alice@example.com" "hunter2" 0).message) ∧
    (login users0 "bob@example.com" "hunter2" 0).status = 404 ∧
    (login users0 "bob@example.com" "hunter2" 0).message = "User not found." ∧
    (login users0 "alice@example.com" "hunter2" 0).status = 401 ∧
    (login users0 "alice@example.com" "hunter2" 0).message = "Invalid credentials." := by
  decide

/-- Claim C5 amended: both failed logins are rejected, but with
distinguishable responses — unknown email yields 404 "User not found.",
wrong password yields 401 "Invalid credentials.". -/
theorem login_enumeration_amended (users : List DbUser)
    (e1 pw1 e2 pw2 : String) (now : Nat) (u : DbUser)
    (he1 : e1 ≠ "") (hp1 : pw1 ≠ "") (he2 : e2 ≠ "") (hp2 : pw2 ≠ "")
    (h1 : findUser users e1 = none) (h2 : findUser users e2 = some u)
    (hl : u.isLocked = false) (hc : comparePassword pw2 u.password = false) :
    (login users e1 pw1 now).status = 404 ∧
    (login users e1 pw1 now).message = "User not found." ∧
    (login users e2 pw2 now).status = 401 ∧
    (login users e2 pw2 now).message = "Invalid credentials." ∧
    ((login users e1 pw1 now).status, (login users e1 pw1 now).message) ≠
      ((login users e2 pw2 now).status, (login users e2 pw2 now).message) := by
  refine ⟨by simp [login, he1, hp1, h1], by simp [login, he1, hp1, h1],
          by simp [login, he2, hp2, h2, hl, hc], by simp [login, he2, hp2, h2, hl, hc], ?_⟩
  simp [login, he1, hp1, h1, he2, hp2, h2, hl, hc]

/-- Witness for the amended C5 at the concrete store `users0`. -/
theorem login_enumeration_amended_witness :
    (login users0 "bob@example.com" "hunter2" 0).status = 404 ∧
    (login users0 "bob@example.com" "hunter2" 0).message = "User not found." ∧
    (login users0 "alice@example.com" "hunter2" 0).status = 401 ∧
    (login users0 "alice@example.com" "hunter2" 0).message = "Invalid credentials." ∧
    ((login users0 "bob@example.com" "hunter2" 0).status,
     (login users0 "bob@example.com" "hunter2" 0).message) ≠
      ((login users0 "alice@example.com" "hunter2" 0).status,
       (login users0 "alice@example.com" "hunter2" 0).message) :=
  login_enumeration_amended users0 "bob@example.com" "hunter2"
    "alice@example.com" "hunter2" 0 (users0.get ⟨0, by decide⟩)
    (by decide) (by decide) (by decide) (by decide) (by decide) (by decide)
    (by decide) (by decide)

/-- Claim C6 counterexample: the action-token verify (`verifyToken`) has no
try/catch, so an expired action token makes it propagate the verification
error to its caller instead of returning null — while the access- and
refresh-token verifies do return `none`. -/
theorem verify_token_raises_counterexample :
    verifyToken actionTok0 4000 = Except.error "jwt expired" ∧
    verifyAccessToken (.malformed "junk") 4000 = none ∧
    verifyRefreshToken (.malformed "junk") 4000 = none :=
  ⟨rfl, rfl, rfl⟩

/-- Claim C6 amended: `verifyAccessToken` and `verifyRefreshToken` map
every underlying verification failure to `none` and never raise;
`verifyToken` (action tokens) propagates the failure to its caller. -/
theorem verify_failure_invalid_amended :
    (∀ (t : TokenInput AccessClaims) (now : Nat) (e : String),
      jwtVerifyAccess t now = .error e → verifyAccessToken t now = none) ∧
    (∀ (t : TokenInput RefreshClaims) (now : Nat) (e : String),
      jwtVerifyRefresh t now = .error e → verifyRefreshToken t now = none) ∧
    (∀ (t : TokenInput ActionClaims) (now : Nat) (e : String),
      jwtVerifyAction t now = .error e → verifyToken t now = .error e) := by
  refine ⟨?_, ?_, ?_⟩ <;> intro t now e h <;>
    simp [verifyAccessToken, verifyRefreshToken, verifyToken, h, Except.map]

/-- Witness for the amended C6 on a malformed input string. -/
theorem verify_failure_invalid_amended_witness :
    verifyAccessToken (.malformed "zzz") 0 = none ∧
    verifyRefreshToken (.malformed "zzz") 0 = none ∧
    verifyToken (.malformed "zzz") 0 = Except.error "jwt malformed" :=
  ⟨verify_failure_invalid_amended.1 _ 0 "jwt malformed" rfl,
   verify_failure_invalid_amended.2.1 _ 0 "jwt malformed" rfl,
   verify_failure_invalid_amended.2.2 _ 0 "jwt malformed" rfl⟩

/-- Claim C7: session frame property. With pairwise-distinct session ids
and `t` in the store: revoking `t.id` removes exactly one record, keeps
every other session (of the same identity and of others) listable,
`revokeAllSessions(uid)` empties `listSessions(uid)`, and both operations
leave sessions of other identities unchanged. -/
theorem session_frame (sessions : List Session) (t : Session)
    (hu : sessions.Pairwise (fun a b => a.id ≠ b.id)) (ht : t ∈ sessions) :
    ((revokeSessionStore sessions t.id).length + 1 = sessions.length) ∧
    (∀ s, s ∈ revokeSessionStore sessions t.id ↔ (s ∈ sessions ∧ s.id ≠ t.id)) ∧
    (∀ uid s, s ∈ listSessions (revokeSessionStore sessions t.id) uid ↔
      (s ∈ listSessions sessions uid ∧ s.id ≠ t.id)) ∧
    (∀ uid', uid' ≠ t.userId →
      listSessions (revokeSessionStore sessions t.id) uid' = listSessions sessions uid') ∧
    (∀ uid, listSessions (revokeAllSessionsStore sessions uid) uid = []) ∧
    (∀ uid uid', uid' ≠ uid →
      listSessions (revokeAllSessionsStore sessions uid) uid' = listSessions sessions uid') := by
  refine ⟨length_revokeSessionStore sessions t hu ht, ?_, ?_, ?_, ?_, ?_⟩
  · intro s
    simp [revokeSessionStore, List.mem_filter]
  · intro uid s
    simp only [listSessions, mem_sortByCreatedDesc, List.mem_filter,
      revokeSessionStore]
    constructor
    · rintro ⟨⟨hs, hid⟩, huid⟩
      exact ⟨⟨hs, huid⟩, by simpa using hid⟩
    · rintro ⟨⟨hs, huid⟩, hid⟩
      exact ⟨⟨hs, by simpa using hid⟩, huid⟩
  · intro uid' hne
    unfold listSessions revokeSessionStore
    congr 1
    rw [List.filter_filter]
    refine List.filter_congr (fun s hs => ?_)
    by_cases h : s.userId == uid'
    · have hsid : ¬(s.id == t.id) := by
        intro hbeq
        have : s = t := eq_of_mem_id sessions hu t s ht hs (by simpa using hbeq)
        subst this
        exact hne ((beq_iff_eq.mp h).symm)
      simp [h, hsid]
    · simp [h]
  · intro uid
    unfold listSessions revokeAllSessionsStore
    rw [List.filter_filter]
    have : sessions.filter (fun s => (s.userId == uid) && !(s.userId == uid)) = [] :=
      List.filter_eq_nil_iff.mpr (fun s _ => by simp)
    rw [this]
    rfl
  · intro uid uid' hne
    unfold listSessions revokeAllSessionsStore
    congr 1
    rw [List.filter_filter]
    refine List.filter_congr (fun s hs => ?_)
    by_cases h : s.userId == uid'
    · have : ¬(s.userId == uid) := by
        intro hb
        exact hne (by simp_all)
      simp [h, this]
    · simp [h]

/-- Witness for C7 at a concrete three-session store of two identities. -/
theorem session_frame_witness :
    ((revokeSessionStore sessions0 sess0.id).length + 1 = sessions0.length) ∧
    (sess0 ∈ revokeSessionStore sessions0 sess0.id ↔
      (sess0 ∈ sessions0 ∧ sess0.id ≠ sess0.id)) ∧
    listSessions (revokeAllSessionsStore sessions0 "u1") "u1" = [] ∧
    listSessions (revokeAllSessionsStore sessions0 "u1") "u2" =
      listSessions sessions0 "u2" ∧
    listSessions (revokeSessionStore sessions0 sess0.id) "u2" =
      listSessions sessions0 "u2" :=
  ⟨(session_frame sessions0 sess0 (by decide) (by decide)).1,
   (session_frame sessions0 sess0 (by decide) (by decide)).2.1 sess0,
   (session_frame sessions0 sess0 (by decide) (by decide)).2.2.2.2.1 "u1",
   (session_frame sessions0 sess0 (by decide) (by decide)).2.2.2.2.2 "u1" "u2" (by decide),
   (session_frame sessions0 sess0 (by decide) (by decide)).2.2.2.1 "u2" (by decide)⟩

/-- Claim C8 counterexample: with two required permissions and an identity
holding neither, all-mode deny reports only the FIRST missing item
(`every` short-circuits), not the required-minus-held set difference. -/
theorem authorize_missing_counterexample :
    authorize ["create_project", "edit_project"] true true (some authzU0) =
      AuthzResult.forbidden ["create_project"] ∧
    setDiff ["create_project", "edit_project"] (userPermissionsOf authzU0) =
      ["create_project", "edit_project"] ∧
    AuthzResult.forbidden ["create_project"] ≠
      AuthzResult.forbidden ["create_project", "edit_project"] := by
  decide

/-- Claim C8 amended: a request with no attached identity is denied as
unauthenticated (401), a distinct error kind from the 403
insufficient-privilege denial; an any-mode denial reports an empty missing
list, and an all-mode denial reports exactly the first required item the
identity does not hold. -/
theorem authorize_amended :
    (∀ (required : List String) (ra cp : Bool),
      authorize required ra cp none = AuthzResult.unauthenticated ∧
      statusOf (authorize required ra cp none) = 401) ∧
    (∀ (required : List String) (u : AuthzUser),
      (∀ x ∈ required, x ∉ userPermissionsOf u) →
      authorize required false true (some u) = AuthzResult.forbidden []) ∧
    (∀ (required : List String) (u : AuthzUser),
      (∀ x ∈ u.roles, x ∉ required) →
      authorize required false false (some u) = AuthzResult.forbidden []) ∧
    (∀ (u : AuthzUser) (pre : List String) (x : String) (suf : List String),
      (∀ p ∈ pre, p ∈ userPermissionsOf u) → x ∉ userPermissionsOf u →
      authorize (pre ++ x :: suf) true true (some u) = AuthzResult.forbidden [x]) ∧
    (∀ (u : AuthzUser) (pre : List String) (x : String) (suf : List String),
      (∀ p ∈ pre, p ∈ u.roles) → x ∉ u.roles →
      authorize (pre ++ x :: suf) true false (some u) = AuthzResult.forbidden [x]) ∧
    (∀ m, statusOf (AuthzResult.forbidden m) = 403 ∧
      AuthzResult.unauthenticated ≠ AuthzResult.forbidden m) := by
  refine ⟨fun required ra cp => ⟨rfl, rfl⟩, ?_, ?_, ?_, ?_, fun m => ⟨rfl, by simp⟩⟩
  · intro required u h
    simp [authorize]
    exact h
  · intro required u h
    simp [authorize]
    exact h
  · intro u pre x suf hpre hx
    simp [authorize]
    rw [everyCollect_first_fail (fun s => decide (s ∈ userPermissionsOf u)) pre x suf
      (fun a ha => by simpa using hpre a ha) (by simpa using hx)]
    rfl
  · intro u pre x suf hpre hx
    simp [authorize]
    rw [everyCollect_first_fail (fun s => decide (s ∈ u.roles)) pre x suf
      (fun a ha => by simpa using hpre a ha) (by simpa using hx)]
    rfl

/-- Witness for the amended C8 at concrete required sets and identities. -/
theorem authorize_amended_witness :
    authorize ["view_project"] true true none = AuthzResult.unauthenticated ∧
    authorize ["view_project"] false true (some authzU0) = AuthzResult.forbidden [] ∧
    authorize ["Admin"] false false (some authzU0) = AuthzResult.forbidden [] ∧
    authorize (["view_project"] ++ "create_project" :: []) true true
      (some { authzU0 with roles := ["Guest"] }) = AuthzResult.forbidden ["create_project"] ∧
    authorize ([] ++ "Admin" :: []) true false (some authzU0) = AuthzResult.forbidden ["Admin"] ∧
    statusOf (AuthzResult.forbidden []) = 403 :=
  ⟨(authorize_amended.1 ["view_project"] true true).1,
   authorize_amended.2.1 ["view_project"] authzU0 (by decide),
   authorize_amended.2.2.1 ["Admin"] authzU0 (by decide),
   authorize_amended.2.2.2.1 { authzU0 with roles := ["Guest"] } ["view_project"]
     "create_project" [] (by decide) (by decide),
   authorize_amended.2.2.2.2.1 authzU0 [] "Admin" [] (by decide) (by decide),
   (authorize_amended.2.2.2.2.2 []).1⟩

/-- Claim C9: the revocation-list check fails open. When the cache is
unreachable, `isTokenBlacklisted` returns `false` even for a token whose
hash was blacklisted before the outage, and `authenticate` never answers
"revoked": it behaves exactly as with an empty blacklist and proceeds to
signature verification. -/
theorem blacklist_fails_open (es : List (String × String)) (token : String)
    (h : isTokenBlacklisted (.up es) token = true) :
    isTokenBlacklisted (.down es) token = false ∧
    (∀ (header : Option String) (decode : String → TokenInput AccessClaims) (now : Nat),
      authenticate (.down es) header decode now ≠ AuthOutcome.revoked ∧
      authenticate (.down es) header decode now = authenticate (.up []) header decode now) := by
  refine ⟨rfl, ?_⟩
  intro header decode now
  match header with
  | none => exact ⟨by simp [authenticate], rfl⟩
  | some s =>
      by_cases hb : s.startsWith "Bearer "
      · by_cases he : (s.drop 7).trim = ""
        · refine ⟨?_, ?_⟩ <;> simp [authenticate, hb, he]
        · have h1 : isTokenBlacklisted (.down es) ((s.drop 7).trim) = false := rfl
          have h2 : isTokenBlacklisted (.up []) ((s.drop 7).trim) = false := rfl
          refine ⟨?_, ?_⟩ <;>
            (simp only [authenticate, hb, he, h1, h2, if_false, if_neg, not_true_eq_false,
              Bool.false_eq_true, ite_false]) <;>
            cases hv : verifyAccessToken (decode ((s.drop 7).trim)) now <;>
            simp [hb, he, hv]
      · exact ⟨by simp [authenticate, hb], by simp [authenticate, hb]⟩

/-- Witness for C9: `tok` is blacklisted in the entries, the cache is down,
and authentication still proceeds past the revocation check. -/
theorem blacklist_fails_open_witness :
    isTokenBlacklisted (CacheState.down blkEntries0) "tok" = false ∧
    isTokenBlacklisted (CacheState.up blkEntries0) "tok" = true ∧
    authenticate (CacheState.down blkEntries0) (some "Bearer tok") decode0 0 ≠
      AuthOutcome.revoked :=
  ⟨(blacklist_fails_open blkEntries0 "tok" (by decide)).1, by decide,
   ((blacklist_fails_open blkEntries0 "tok" (by decide)).2 (some "Bearer tok") decode0 0).1⟩

/-- Claim C10: a successful `sendEmailOtp` returns the freshly generated
6-digit code in plaintext in the 200 response body, in addition to
emailing it, caching it under the identity key with a 300-second TTL, and
persisting it in `TwoFactorSettings.emailCode`. -/
theorem send_email_otp_returns_code (twoFactorUserIds : List String)
    (uid em : String) (rand : Nat) (hu : uid ≠ "") (he : em ≠ "")
    (hmem : uid ∈ twoFactorUserIds) :
    (sendEmailOtp twoFactorUserIds (some uid) (some em) rand).status = 200 ∧
    (sendEmailOtp twoFactorUserIds (some uid) (some em) rand).bodyOtp =
      some (toString (100000 + rand % 900000)) ∧
    (sendEmailOtp twoFactorUserIds (some uid) (some em) rand).emailedTo =
      some (em, toString (100000 + rand % 900000)) ∧
    (sendEmailOtp twoFactorUserIds (some uid) (some em) rand).cacheWrite =
      some ("emailOtp:" ++ uid, toString (100000 + rand % 900000), 300) ∧
    (sendEmailOtp twoFactorUserIds (some uid) (some em) rand).dbEmailCode =
      some (uid, toString (100000 + rand % 900000)) ∧
    100000 ≤ 100000 + rand % 900000 ∧ 100000 + rand % 900000 ≤ 999999 := by
  have h6 : rand % 900000 < 900000 := Nat.mod_lt _ (by omega)
  refine ⟨?_, ?_, ?_, ?_, ?_, by omega, by omega⟩ <;>
    simp [sendEmailOtp, strTruthy, hu, he, hmem]

/-- Witness for C10 at a concrete identity and random draw. -/
theorem send_email_otp_returns_code_witness :
    (sendEmailOtp ["u1"] (some "u1") (some "a@example.com") 12345).status = 200 ∧
    (sendEmailOtp ["u1"] (some "u1") (some "a@example.com") 12345).bodyOtp =
      some (toString (100000 + 12345 % 900000)) ∧
    (sendEmailOtp ["u1"] (some "u1") (some "a@example.com") 12345).emailedTo =
      some ("a@example.com", toString (100000 + 12345 % 900000)) ∧
    (sendEmailOtp ["u1"] (some "u1") (some "a@example.com") 12345).cacheWrite =
      some ("emailOtp:" ++ "u1", toString (100000 + 12345 % 900000), 300) ∧
    (sendEmailOtp ["u1"] (some "u1") (some "a@example.com") 12345).dbEmailCode =
      some ("u1", toString (100000 + 12345 % 900000)) ∧
    100000 ≤ 100000 + 12345 % 900000 ∧ 100000 + 12345 % 900000 ≤ 999999 :=
  send_email_otp_returns_code ["u1"] "u1" "a@example.com" 12345
    (by decide) (by decide) (by decide)

end SyncFlow
